import Mathlib

/-!
Shallow embedding of the flight booking simulator (`src/script.js`).

The script has two parts:
* the search-form submit handler, which synthesizes a fixed 3-flight
  catalog with randomized prices and filters it by airline, max price and
  time slot;
* the booking workflow (`openBooking` / `confirmBooking` /
  `downloadReceipt`), which keeps a selected flight and a booking record
  in globals, persists the record as JSON to `localStorage` under the key
  `"booking"`, and offers the record as a JSON file download.

Randomness (`Math.random()`) is modelled by an explicit rational draw
`q` with `0 ≤ q < 1`; `Math.floor(Math.random() * n)` becomes
`⌊q * n⌋`.  JSON values are modelled by an AST `Json`;
`JSON.stringify`/`JSON.parse` on booking records become
`Booking.toJson` / `Json.toBooking` (text-level concerns such as the
2-space indentation passed to `JSON.stringify` have no observable effect
on the parsed value and are not modelled).
-/

namespace FlightSim

/-- One synthesized flight offer, as built in the `flights` array of the
submit handler: `{ airline, flight, time, price }`. -/
structure Flight where
  airline : String
  flight : String
  time : String
  price : ℤ
  deriving DecidableEq, Repr

/-- The search criteria read from the form in the submit handler:
`from`, `to`, `airline`, `maxPrice = parseInt(price field)`, `timeSlot`.
`maxPrice = none` models the `NaN` produced when `parseInt` fails;
an empty string models an unset (falsy) `airline` or `timeSlot`. -/
structure Criteria where
  origin : String
  destination : String
  airline : String
  maxPrice : Option ℤ
  timeSlot : String
  deriving DecidableEq, Repr

/-- `Math.floor(q * n)` for a draw `q` of `Math.random()`. -/
def randInt (q : ℚ) (n : ℕ) : ℤ := ⌊q * n⌋

/-- `getPrice()`: `Math.floor(Math.random() * 5000) + 4000`, with the
`Math.random()` draw made explicit. -/
def getPrice (q : ℚ) : ℤ := randInt q 5000 + 4000

/-- The decimal string of an integer, as JavaScript number-to-string
conversion produces for integral values (and as Lean's own `Int`
rendering computes it). -/
def intToStr (i : ℤ) : String :=
  match i with
  | Int.ofNat m => Nat.repr m
  | Int.negSucc m => "-" ++ Nat.repr (m + 1)

/-- JavaScript `parseInt` in base 10 on a character sequence: skip
leading whitespace, an optional sign, then the longest prefix of decimal
digits; `none` models `NaN` (no digits found). -/
def parseIntChars (cs0 : List Char) : Option ℤ :=
  let cs := cs0.dropWhile Char.isWhitespace
  let signed : ℤ × List Char :=
    match cs with
    | '-' :: r => (-1, r)
    | '+' :: r => (1, r)
    | r => (1, r)
  let ds := signed.2.takeWhile Char.isDigit
  if ds.isEmpty then none
  else some (signed.1 * (ds.foldl (fun a c => a * 10 + (c.toNat - 48)) 0 : ℕ))

/-- JavaScript `parseInt` in base 10 on a string. -/
def parseIntJS (s : String) : Option ℤ := parseIntChars s.data

/-- `parseInt(f.time.split(":")[0])`: the departure hour of a flight —
the characters before the first `':'` fed to `parseInt`; `none` when
the hour component does not parse. -/
def flightHour (f : Flight) : Option ℤ :=
  parseIntChars (f.time.data.takeWhile (fun c => ¬ c = ':'))

/-- JavaScript `x <= m` where `m` may be `NaN` (`none`): any comparison
with `NaN` is false. -/
def jsLe (x : ℤ) (m : Option ℤ) : Bool :=
  match m with
  | some v => x ≤ v
  | none => false

/-- JavaScript `h < b` where `h` may be `NaN` (`none`). -/
def jsLt (h : Option ℤ) (b : ℤ) : Bool :=
  match h with
  | some v => v < b
  | none => false

/-- JavaScript `h >= b` where `h` may be `NaN` (`none`). -/
def jsGe (h : Option ℤ) (b : ℤ) : Bool :=
  match h with
  | some v => b ≤ v
  | none => false

/-- The filter predicate of the submit handler, verbatim:
`(!airline || f.airline === airline) && f.price <= maxPrice &&
(!timeSlot || (timeSlot === "morning" && hour < 12) || ...)`. -/
def matchesCriteria (c : Criteria) (f : Flight) : Bool :=
  (c.airline == "" || f.airline == c.airline) &&
  jsLe f.price c.maxPrice &&
  (c.timeSlot == "" ||
    (c.timeSlot == "morning" && jsLt (flightHour f) 12) ||
    (c.timeSlot == "afternoon" && jsGe (flightHour f) 12 && jsLt (flightHour f) 18) ||
    (c.timeSlot == "evening" && jsGe (flightHour f) 18))

/-- The fixed 3-element candidate catalog built on every submission, with
one fresh price draw per offer. -/
def catalog (q1 q2 q3 : ℚ) : List Flight :=
  [ { airline := "Air India", flight := "AI202", time := "10:00", price := getPrice q1 },
    { airline := "IndiGo", flight := "6E305", time := "14:30", price := getPrice q2 },
    { airline := "SpiceJet", flight := "SG101", time := "19:45", price := getPrice q3 } ]

/-- The result list of one search submission: the catalog filtered by the
criteria (`flights.filter(...)` in the handler). -/
def searchFlights (c : Criteria) (q1 q2 q3 : ℚ) : List Flight :=
  (catalog q1 q2 q3).filter (matchesCriteria c)

/-- The submit handler end to end: read the raw form fields, parse the
max price with `parseInt`, and filter the catalog.  `origin` and
`destination` are read but never constrain the filter. -/
def submitSearch (origin destination airline priceStr timeSlot : String)
    (q1 q2 q3 : ℚ) : List Flight :=
  searchFlights
    { origin := origin, destination := destination, airline := airline,
      maxPrice := parseIntJS priceStr, timeSlot := timeSlot } q1 q2 q3

/-! ### Booking workflow (`openBooking`, `confirmBooking`, `downloadReceipt`) -/

/-- A JSON value, as far as this script's records need: `JSON.stringify`
on a booking record only ever produces strings, integral numbers, `null`
(the unselected flight) and objects. -/
inductive Json where
  | null : Json
  | str : String → Json
  | num : ℤ → Json
  | obj : List (String × Json) → Json

/-- The components of the `Date` whose `toISOString()` stamps a booking. -/
structure DateTime where
  year : ℕ
  month : ℕ
  day : ℕ
  hour : ℕ
  minute : ℕ
  second : ℕ
  millis : ℕ
  deriving DecidableEq, Repr

/-- Left-pad the decimal rendering of `n` with zeros to width `w`. -/
def padNat (w n : ℕ) : String :=
  String.mk (List.replicate (w - (Nat.repr n).length) '0') ++ Nat.repr n

/-- `Date.prototype.toISOString`: `YYYY-MM-DDTHH:mm:ss.sssZ`. -/
def toISOString (d : DateTime) : String :=
  padNat 4 d.year ++ "-" ++ padNat 2 d.month ++ "-" ++ padNat 2 d.day ++ "T" ++
  padNat 2 d.hour ++ ":" ++ padNat 2 d.minute ++ ":" ++ padNat 2 d.second ++ "." ++
  padNat 3 d.millis ++ "Z"

/-- The booking record assembled by `confirmBooking`:
`{ passenger, email, flight: selectedFlight, pnr, timestamp }`.
`flight` is an `Option` because `confirmBooking` copies the
`selectedFlight` global, which is `null` until `openBooking` runs. -/
structure Booking where
  passenger : String
  email : String
  flight : Option Flight
  pnr : String
  timestamp : String
  deriving DecidableEq, Repr

/-- The confirmation code: `"PNR" + Math.floor(Math.random() * 1000000)`. -/
def pnrCode (q : ℚ) : String := "PNR" ++ intToStr (randInt q 1000000)

/-- Whether a character list matches the spec's confirmation-code
pattern `PNR\d\x7b1,6\x7d`: the literal `PNR` then one to six decimal
digits. -/
def pnrPatternChars : List Char → Bool
  | 'P' :: 'N' :: 'R' :: ds => ¬ ds.isEmpty && ds.length ≤ 6 && ds.all Char.isDigit
  | _ => false

/-- Whether a string matches the spec's confirmation-code pattern. -/
def pnrPattern (s : String) : Bool := pnrPatternChars s.data

/-- The record literal built inside `confirmBooking`, given the current
selection, the `Math.random()` draw for the code and the current time. -/
def mkBooking (name email : String) (sel : Option Flight) (q : ℚ)
    (now : DateTime) : Booking :=
  { passenger := name, email := email, flight := sel, pnr := pnrCode q,
    timestamp := toISOString now }

/-- `JSON.stringify` of a flight value (or of `null`). -/
def flightToJson : Option Flight → Json
  | none => Json.null
  | some f => Json.obj
      [("airline", Json.str f.airline), ("flight", Json.str f.flight),
       ("time", Json.str f.time), ("price", Json.num f.price)]

/-- `JSON.stringify(bookingDetails)`: the JSON value persisted to storage
and offered for download. -/
def Booking.toJson (b : Booking) : Json :=
  Json.obj
    [("passenger", Json.str b.passenger), ("email", Json.str b.email),
     ("flight", flightToJson b.flight), ("pnr", Json.str b.pnr),
     ("timestamp", Json.str b.timestamp)]

/-- `JSON.parse` of a flight object, checked against the `Flight` shape. -/
def Json.toFlight : Json → Option Flight
  | Json.obj [("airline", Json.str a), ("flight", Json.str fl),
      ("time", Json.str t), ("price", Json.num p)] =>
      some { airline := a, flight := fl, time := t, price := p }
  | _ => none

/-- `JSON.parse` of a persisted booking record, checked against the
`Booking` shape (with `flight` either `null` or a flight object). -/
def Json.toBooking : Json → Option Booking
  | Json.obj [("passenger", Json.str n), ("email", Json.str e),
      ("flight", fj), ("pnr", Json.str p), ("timestamp", Json.str t)] =>
      match fj with
      | Json.null => some ⟨n, e, none, p, t⟩
      | _ => (Json.toFlight fj).map (fun f => ⟨n, e, some f, p, t⟩)
  | _ => none

/-- `localStorage.setItem(key, value)` on a key-value store. -/
def setItem (key : String) (v : Json) (st : List (String × Json)) :
    List (String × Json) :=
  (key, v) :: st.filter (fun p => ¬ p.1 = key)

/-- `localStorage.getItem(key)` on a key-value store. -/
def getItem (key : String) (st : List (String × Json)) : Option Json :=
  (st.find? (fun p => p.1 = key)).map Prod.snd

/-- The session state: the two globals of the script
(`selectedFlight`, `bookingDetails`), the browser's local storage, and
the list of file downloads offered so far (newest first, as
`(filename, payload)` pairs). -/
structure SessionState where
  selectedFlight : Option Flight
  bookingDetails : Option Booking
  storage : List (String × Json)
  downloads : List (String × Json)

/-- The state of a fresh page: both globals `null`, nothing stored. -/
def initialState : SessionState :=
  { selectedFlight := none, bookingDetails := none, storage := [], downloads := [] }

/-- A user-driven event of the booking workflow.  `confirmBooking`
carries the form fields, the `Math.random()` draw for the confirmation
code and the current time. -/
inductive Event where
  | selectOffer : Flight → Event
  | confirmBooking : String → String → ℚ → DateTime → Event
  | downloadReceipt : Event

/-- One step of the workflow.  `selectOffer` is `openBooking` (records
the pending selection); `confirmBooking` builds the record, stores it in
the global and persists it under the fixed key `"booking"`;
`downloadReceipt` reads `bookingDetails.pnr` and so throws on a `null`
record (`none` result); otherwise it offers
`booking_<pnr>.json` with the stringified record and changes nothing
else. -/
def step (s : SessionState) : Event → Option SessionState
  | Event.selectOffer f => some { s with selectedFlight := some f }
  | Event.confirmBooking name email q now =>
      let b := mkBooking name email s.selectedFlight q now
      some { s with bookingDetails := some b,
                    storage := setItem "booking" b.toJson s.storage }
  | Event.downloadReceipt =>
      match s.bookingDetails with
      | none => none
      | some b => some { s with
          downloads := ("booking_" ++ b.pnr ++ ".json", b.toJson) :: s.downloads }

/-- Run a sequence of events from a state; `none` as soon as one throws. -/
def run (s : SessionState) : List Event → Option SessionState
  | [] => some s
  | e :: es => (step s e).bind (fun s' => run s' es)

/-! ### Spec-side definitions (for the refinement claim C1)

These follow the specification's words, to be compared with the
handler's filter: an optional airline filter compared case-sensitively,
an integer max price bounding the freshly drawn price, and an optional
time slot constraining the departure hour to morning `[0,12)`,
afternoon `[12,18)` or evening `[18,24)`. -/

/-- The spec's time-slot enumeration. -/
inductive TimeSlot where
  | morning : TimeSlot
  | afternoon : TimeSlot
  | evening : TimeSlot
  deriving DecidableEq, Repr

/-- The slot named by a form value, `none` for the unset value `""`. -/
def slotOfString : String → Option TimeSlot
  | "morning" => some TimeSlot.morning
  | "afternoon" => some TimeSlot.afternoon
  | "evening" => some TimeSlot.evening
  | _ => none

/-- Membership of an hour in a slot's half-open range, per the spec:
morning `[0,12)`, afternoon `[12,18)`, evening `[18,24)`. -/
def hourInSlot (h : ℤ) : TimeSlot → Bool
  | TimeSlot.morning => 0 ≤ h && h < 12
  | TimeSlot.afternoon => 12 ≤ h && h < 18
  | TimeSlot.evening => 18 ≤ h && h < 24

/-- The spec's candidate predicate: written from the specification text,
not from the handler.  The departure hour is the one parsed from the
fixed `"HH:MM"` string. -/
def specMatches (airlineFilter : Option String) (maxPrice : ℤ)
    (slot : Option TimeSlot) (f : Flight) : Bool :=
  (match airlineFilter with
   | none => true
   | some a => f.airline == a) &&
  (f.price ≤ maxPrice) &&
  (match slot with
   | none => true
   | some ts =>
     match flightHour f with
     | some h => hourInSlot h ts
     | none => false)

/-! ### Helper lemmas -/

theorem randInt_nonneg {q : ℚ} (n : ℕ) (h0 : 0 ≤ q) : 0 ≤ randInt q n := by
  unfold randInt
  exact Int.floor_nonneg.mpr (mul_nonneg h0 (by positivity))

theorem randInt_lt {q : ℚ} (n : ℕ) (h1 : q < 1) (hn : 0 < n) : randInt q n < n := by
  unfold randInt
  rw [Int.floor_lt]
  push_cast
  calc q * n < 1 * n := by
        apply mul_lt_mul_of_pos_right h1
        exact_mod_cast hn
    _ = n := one_mul _

theorem getPrice_lb {q : ℚ} (h0 : 0 ≤ q) : 4000 ≤ getPrice q := by
  have := randInt_nonneg (q := q) 5000 h0
  unfold getPrice
  omega

theorem getPrice_ub {q : ℚ} (h1 : q < 1) : getPrice q ≤ 8999 := by
  have := randInt_lt (q := q) 5000 h1 (by norm_num)
  unfold getPrice
  omega

theorem getPrice_attains (v : ℤ) (hl : 4000 ≤ v) (hu : v ≤ 8999) :
    ∃ q : ℚ, 0 ≤ q ∧ q < 1 ∧ getPrice q = v := by
  refine ⟨((v - 4000 : ℤ) : ℚ) / 5000, ?_, ?_, ?_⟩
  · apply div_nonneg _ (by norm_num)
    exact_mod_cast sub_nonneg.mpr hl
  · rw [div_lt_one (by norm_num)]
    exact_mod_cast by omega
  · unfold getPrice randInt
    have h : ((v - 4000 : ℤ) : ℚ) / 5000 * (5000 : ℕ) = ((v - 4000 : ℤ) : ℚ) := by
      push_cast
      field_simp
    rw [h, Int.floor_intCast]
    omega

theorem jsLe_some (x v : ℤ) : jsLe x (some v) = decide (x ≤ v) := rfl

theorem jsLe_none (x : ℤ) : jsLe x none = false := rfl

theorem flightHour_airIndia (p : ℤ) :
    flightHour { airline := "Air India", flight := "AI202", time := "10:00", price := p } =
      some 10 := rfl

theorem flightHour_indigo (p : ℤ) :
    flightHour { airline := "IndiGo", flight := "6E305", time := "14:30", price := p } =
      some 14 := rfl

theorem flightHour_spiceJet (p : ℤ) :
    flightHour { airline := "SpiceJet", flight := "SG101", time := "19:45", price := p } =
      some 19 := rfl

/-! ### Claim theorems: the search handler -/

/-- C3: every offer of a search result has an integer price in
`[4000, 8999]`, and — the draws being independent per offer per search —
every value of that range is attainable by a draw. -/
theorem C3_price_range :
    (∀ (c : Criteria) (q1 q2 q3 : ℚ), 0 ≤ q1 → q1 < 1 → 0 ≤ q2 → q2 < 1 →
      0 ≤ q3 → q3 < 1 →
      ∀ f ∈ searchFlights c q1 q2 q3, 4000 ≤ f.price ∧ f.price ≤ 8999) ∧
    (∀ v : ℤ, 4000 ≤ v → v ≤ 8999 → ∃ q : ℚ, 0 ≤ q ∧ q < 1 ∧ getPrice q = v) := by
  constructor
  · intro c q1 q2 q3 h1 h1' h2 h2' h3 h3' f hf
    have hf' : f ∈ catalog q1 q2 q3 := List.mem_of_mem_filter hf
    simp only [catalog, List.mem_cons, List.not_mem_nil, or_false] at hf'
    rcases hf' with rfl | rfl | rfl
    · exact ⟨getPrice_lb h1, getPrice_ub h1'⟩
    · exact ⟨getPrice_lb h2, getPrice_ub h2'⟩
    · exact ⟨getPrice_lb h3, getPrice_ub h3'⟩
  · exact getPrice_attains

/-- Witness for C3 at draw `0` (for the range) and value `4500`
(for attainability). -/
theorem C3_price_range_witness :
    (4000 ≤ getPrice 0 ∧ getPrice 0 ≤ 8999) ∧
    (∃ q : ℚ, 0 ≤ q ∧ q < 1 ∧ getPrice q = 4500) := by
  constructor
  · have hle : getPrice 0 ≤ 9000 := le_trans (getPrice_ub zero_lt_one) (by decide)
    refine C3_price_range.1 ⟨"", "", "", some 9000, ""⟩ 0 0 0 le_rfl zero_lt_one le_rfl
      zero_lt_one le_rfl zero_lt_one
      { airline := "Air India", flight := "AI202", time := "10:00", price := getPrice 0 } ?_
    exact List.mem_filter.mpr ⟨by simp [catalog], by simp [matchesCriteria, jsLe, hle]⟩
  · exact C3_price_range.2 4500 (by decide) (by decide)

/-- C5: with an integer max price below 4000 the search returns no
candidates, whatever the draws and the other filters. -/
theorem C5_low_maxPrice_empty (o d a ts : String) (m : ℤ) (q1 q2 q3 : ℚ)
    (hm : m < 4000) (h1 : 0 ≤ q1) (h1' : q1 < 1) (h2 : 0 ≤ q2) (h2' : q2 < 1)
    (h3 : 0 ≤ q3) (h3' : q3 < 1) :
    searchFlights ⟨o, d, a, some m, ts⟩ q1 q2 q3 = [] := by
  unfold searchFlights
  rw [List.filter_eq_nil_iff]
  intro f hf
  simp only [catalog, List.mem_cons, List.not_mem_nil, or_false] at hf
  have hp : ¬ (f.price ≤ m) := by
    rcases hf with rfl | rfl | rfl
    · have := getPrice_lb h1; simp only; omega
    · have := getPrice_lb h2; simp only; omega
    · have := getPrice_lb h3; simp only; omega
  simp [matchesCriteria, jsLe, hp]

/-- Witness for C5 at max price 3999 and draws 0. -/
theorem C5_low_maxPrice_empty_witness :
    searchFlights ⟨"DEL", "BOM", "", some 3999, ""⟩ 0 0 0 = [] :=
  C5_low_maxPrice_empty "DEL" "BOM" "" "" 3999 0 0 0 (by decide) le_rfl zero_lt_one
    le_rfl zero_lt_one le_rfl zero_lt_one

/-- C6: the scenario search (DEL → BOM, airline IndiGo, max price 9000,
afternoon) returns exactly the IndiGo 6E305 14:30 offer, for every
possible draw of the prices. -/
theorem C6_scenario_indigo_afternoon (q1 q2 q3 : ℚ) (h2 : 0 ≤ q2) (h2' : q2 < 1) :
    searchFlights ⟨"DEL", "BOM", "IndiGo", some 9000, "afternoon"⟩ q1 q2 q3 =
      [{ airline := "IndiGo", flight := "6E305", time := "14:30", price := getPrice q2 }] := by
  have hp : getPrice q2 ≤ 9000 := le_trans (getPrice_ub h2') (by decide)
  simp [searchFlights, catalog, matchesCriteria, jsLe, jsGe, jsLt, List.filter,
    flightHour_airIndia, flightHour_indigo, flightHour_spiceJet, hp]

/-- Witness for C6 at draws 0. -/
theorem C6_scenario_indigo_afternoon_witness :
    searchFlights ⟨"DEL", "BOM", "IndiGo", some 9000, "afternoon"⟩ 0 0 0 =
      [{ airline := "IndiGo", flight := "6E305", time := "14:30", price := getPrice 0 }] :=
  C6_scenario_indigo_afternoon 0 0 0 le_rfl zero_lt_one

/-- C9: when the max-price field does not parse as a number, the filter
rejects every candidate and the submission yields the empty result list
(the handler is a total function: no error is raised). -/
theorem C9_unparsable_maxPrice_empty (o d a ps ts : String) (q1 q2 q3 : ℚ)
    (hp : parseIntJS ps = none) :
    submitSearch o d a ps ts q1 q2 q3 = [] := by
  unfold submitSearch searchFlights
  rw [List.filter_eq_nil_iff]
  intro f hf
  simp [matchesCriteria, hp, jsLe]

/-- Witness for C9 on the non-numeric max price `"abc"`. -/
theorem C9_unparsable_maxPrice_empty_witness :
    submitSearch "DEL" "BOM" "" "abc" "" 0 0 0 = [] :=
  C9_unparsable_maxPrice_empty "DEL" "BOM" "" "abc" "" 0 0 0 (by decide)

/-- C1: for every criteria (with an integer max price and a well-formed
time-slot value), the search result is exactly the subset of the catalog
whose members satisfy the spec's predicate: exact case-sensitive airline
match when the filter is set, freshly drawn price at most the max price,
and departure hour in the chosen slot's range (`[0,12)`, `[12,18)`,
`[18,24)`). -/
theorem C1_search_is_spec_filter (o d a : String) (m : ℤ) (ts : String)
    (q1 q2 q3 : ℚ)
    (hts : ts = "" ∨ ts = "morning" ∨ ts = "afternoon" ∨ ts = "evening") :
    searchFlights ⟨o, d, a, some m, ts⟩ q1 q2 q3 =
      (catalog q1 q2 q3).filter
        (specMatches (if a = "" then none else some a) m (slotOfString ts)) := by
  unfold searchFlights
  apply List.filter_congr
  intro f hf
  simp only [catalog, List.mem_cons, List.not_mem_nil, or_false] at hf
  by_cases ha : a = ""
  · rcases hts with rfl | rfl | rfl | rfl <;>
      rcases hf with rfl | rfl | rfl <;>
      simp [matchesCriteria, specMatches, slotOfString, hourInSlot, jsLe, jsGe, jsLt,
        flightHour_airIndia, flightHour_indigo, flightHour_spiceJet, ha]
  · have hbeq : (a == "") = false := beq_eq_false_iff_ne.mpr ha
    rcases hts with rfl | rfl | rfl | rfl <;>
      rcases hf with rfl | rfl | rfl <;>
      simp [matchesCriteria, specMatches, slotOfString, hourInSlot, jsLe, jsGe, jsLt,
        flightHour_airIndia, flightHour_indigo, flightHour_spiceJet, ha, hbeq]

/-- Witness for C1: the afternoon IndiGo criteria at draws 0. -/
theorem C1_search_is_spec_filter_witness :
    searchFlights ⟨"DEL", "BOM", "IndiGo", some 9000, "afternoon"⟩ 0 0 0 =
      (catalog 0 0 0).filter
        (specMatches (if ("IndiGo" : String) = "" then none else some "IndiGo") 9000
          (slotOfString "afternoon")) :=
  C1_search_is_spec_filter "DEL" "BOM" "IndiGo" 9000 "afternoon" 0 0 0
    (Or.inr (Or.inr (Or.inl rfl)))

/-! ### Digit lemmas for the confirmation code -/

theorem digitChar_isDigit {m : ℕ} (h : m < 10) : (Nat.digitChar m).isDigit = true := by
  interval_cases m <;> decide

theorem toDigitsCore_all_digits (f : ℕ) : ∀ (n : ℕ) (acc : List Char),
    (∀ c ∈ acc, c.isDigit = true) →
    ∀ c ∈ Nat.toDigitsCore 10 f n acc, c.isDigit = true := by
  induction f with
  | zero =>
    intro n acc hacc c hc
    exact hacc c hc
  | succ f ih =>
    intro n acc hacc c hc
    simp only [Nat.toDigitsCore] at hc
    have hd : ∀ x ∈ Nat.digitChar (n % 10) :: acc, x.isDigit = true := by
      intro x hx
      rcases List.mem_cons.mp hx with rfl | hx'
      · exact digitChar_isDigit (Nat.mod_lt _ (by norm_num))
      · exact hacc x hx'
    split at hc
    · exact hd c hc
    · exact ih (n / 10) (Nat.digitChar (n % 10) :: acc) hd c hc

theorem repr_data_all_digits (n : ℕ) : ∀ c ∈ (Nat.repr n).data, c.isDigit = true := by
  intro c hc
  have h : (Nat.repr n).data = Nat.toDigitsCore 10 (n + 1) n [] := rfl
  rw [h] at hc
  exact toDigitsCore_all_digits (n + 1) n [] (by intro x hx; cases hx) c hc

theorem repr_length_pos (n : ℕ) : 1 ≤ (Nat.repr n).length := by
  have h : (Nat.repr n).length = (Nat.toDigitsCore 10 (n + 1) n []).length := rfl
  rw [h, Nat.toDigitsCore]
  split
  · simp
  · rw [Nat.toDigitsCore_lens_eq]
    omega

theorem pnrPattern_of_bounds {r : ℤ} (h0 : 0 ≤ r) (h6 : r < 1000000) :
    pnrPattern ("PNR" ++ intToStr r) = true := by
  obtain ⟨m, rfl⟩ := Int.eq_ofNat_of_zero_le h0
  have hm : m < 1000000 := by exact_mod_cast h6
  show (¬ (Nat.repr m).data.isEmpty && (Nat.repr m).data.length ≤ 6 &&
    (Nat.repr m).data.all Char.isDigit) = true
  have hlen : (Nat.repr m).data.length ≤ 6 := by
    have := Nat.repr_length m 6 (by norm_num) (by omega)
    exact this
  have hpos : 1 ≤ (Nat.repr m).data.length := repr_length_pos m
  have hne : (Nat.repr m).data.isEmpty = false := by
    cases hd : (Nat.repr m).data with
    | nil => rw [hd] at hpos; simp at hpos
    | cons x xs => rfl
  have hall : (Nat.repr m).data.all Char.isDigit = true :=
    List.all_eq_true.mpr (repr_data_all_digits m)
  rw [hne, hall]
  simpa using hlen

/-! ### Round trip of the persisted JSON -/

theorem toJson_toBooking (b : Booking) : Json.toBooking (Booking.toJson b) = some b := by
  rcases b with ⟨p, e, fl, pn, t⟩
  cases fl with
  | none => rfl
  | some f => rfl

/-! ### Claim theorems: the booking workflow -/

/-- C4: selecting an offer `X` and immediately confirming with
name "Alice" and email "a@x.com" yields a booking record whose flight is
exactly `X` and whose confirmation code is `"PNR"` followed by the drawn
integer, an integer in `[0, 999999]`, so the code matches
`PNR` followed by one to six digits. -/
theorem C4_select_confirm_record (s : SessionState) (X : Flight) (q : ℚ)
    (now : DateTime) (h0 : 0 ≤ q) (h1 : q < 1) :
    ∃ b : Booking,
      (run s [Event.selectOffer X, Event.confirmBooking "Alice" "a@x.com" q now]).bind
        SessionState.bookingDetails = some b ∧
      b.flight = some X ∧
      b.pnr = "PNR" ++ intToStr (randInt q 1000000) ∧
      0 ≤ randInt q 1000000 ∧ randInt q 1000000 < 1000000 ∧
      pnrPattern b.pnr = true := by
  refine ⟨mkBooking "Alice" "a@x.com" (some X) q now, rfl, rfl, rfl, ?_, ?_, ?_⟩
  · exact randInt_nonneg 1000000 h0
  · exact_mod_cast randInt_lt 1000000 h1 (by norm_num)
  · exact pnrPattern_of_bounds (randInt_nonneg 1000000 h0)
      (by exact_mod_cast randInt_lt 1000000 h1 (by norm_num))

/-- Witness for C4: a concrete offer, draw 0 and a fixed clock. -/
theorem C4_select_confirm_record_witness :
    ∃ b : Booking,
      (run initialState
        [Event.selectOffer { airline := "IndiGo", flight := "6E305", time := "14:30", price := 5000 },
         Event.confirmBooking "Alice" "a@x.com" 0 ⟨2026, 10, 11, 0, 0, 0, 0⟩]).bind
        SessionState.bookingDetails = some b ∧
      b.flight = some { airline := "IndiGo", flight := "6E305", time := "14:30", price := 5000 } ∧
      b.pnr = "PNR" ++ intToStr (randInt 0 1000000) ∧
      0 ≤ randInt 0 1000000 ∧ randInt 0 1000000 < 1000000 ∧
      pnrPattern b.pnr = true :=
  C4_select_confirm_record initialState
    { airline := "IndiGo", flight := "6E305", time := "14:30", price := 5000 }
    0 ⟨2026, 10, 11, 0, 0, 0, 0⟩ le_rfl zero_lt_one

/-- C7: after two consecutive `confirmBooking` calls, the storage entry
under the fixed key `"booking"` is exactly the serialized record of the
second call — parsing it recovers that record and nothing of the first. -/
theorem C7_second_confirm_overwrites (s : SessionState) (n1 e1 : String) (r1 : ℚ)
    (t1 : DateTime) (n2 e2 : String) (r2 : ℚ) (t2 : DateTime) :
    ∃ s2 : SessionState,
      run s [Event.confirmBooking n1 e1 r1 t1, Event.confirmBooking n2 e2 r2 t2] =
        some s2 ∧
      s2.bookingDetails = some (mkBooking n2 e2 s.selectedFlight r2 t2) ∧
      getItem "booking" s2.storage =
        some (Booking.toJson (mkBooking n2 e2 s.selectedFlight r2 t2)) ∧
      Json.toBooking (Booking.toJson (mkBooking n2 e2 s.selectedFlight r2 t2)) =
        some (mkBooking n2 e2 s.selectedFlight r2 t2) := by
  refine ⟨_, rfl, rfl, rfl, toJson_toBooking _⟩

/-- Witness for C7 on a fresh session and concrete passengers. -/
theorem C7_second_confirm_overwrites_witness :
    ∃ s2 : SessionState,
      run initialState
        [Event.confirmBooking "Alice" "a@x.com" 0 ⟨2026, 10, 11, 0, 0, 0, 0⟩,
         Event.confirmBooking "Bob" "b@x.com" 0 ⟨2026, 10, 11, 1, 0, 0, 0⟩] = some s2 ∧
      s2.bookingDetails = some (mkBooking "Bob" "b@x.com" initialState.selectedFlight 0
        ⟨2026, 10, 11, 1, 0, 0, 0⟩) ∧
      getItem "booking" s2.storage =
        some (Booking.toJson (mkBooking "Bob" "b@x.com" initialState.selectedFlight 0
          ⟨2026, 10, 11, 1, 0, 0, 0⟩)) ∧
      Json.toBooking (Booking.toJson (mkBooking "Bob" "b@x.com" initialState.selectedFlight 0
        ⟨2026, 10, 11, 1, 0, 0, 0⟩)) =
        some (mkBooking "Bob" "b@x.com" initialState.selectedFlight 0
          ⟨2026, 10, 11, 1, 0, 0, 0⟩) :=
  C7_second_confirm_overwrites initialState "Alice" "a@x.com" 0 ⟨2026, 10, 11, 0, 0, 0, 0⟩
    "Bob" "b@x.com" 0 ⟨2026, 10, 11, 1, 0, 0, 0⟩

/-- C8: downloading the receipt right after a `confirmBooking` offers a
file named `booking_<code>.json` whose JSON payload parses back to the
in-memory booking record, the timestamp being an `toISOString` image. -/
theorem C8_download_roundtrip (s : SessionState) (n e : String) (r : ℚ)
    (t : DateTime) :
    ∃ s2 : SessionState,
      run s [Event.confirmBooking n e r t, Event.downloadReceipt] = some s2 ∧
      s2.downloads.head? =
        some ("booking_" ++ (mkBooking n e s.selectedFlight r t).pnr ++ ".json",
          Booking.toJson (mkBooking n e s.selectedFlight r t)) ∧
      Json.toBooking (Booking.toJson (mkBooking n e s.selectedFlight r t)) =
        some (mkBooking n e s.selectedFlight r t) ∧
      ∃ dt : DateTime, (mkBooking n e s.selectedFlight r t).timestamp = toISOString dt := by
  refine ⟨_, rfl, rfl, toJson_toBooking _, t, rfl⟩

/-- Witness for C8 on a fresh session. -/
theorem C8_download_roundtrip_witness :
    ∃ s2 : SessionState,
      run initialState
        [Event.confirmBooking "Alice" "a@x.com" 0 ⟨2026, 10, 11, 0, 0, 0, 0⟩,
         Event.downloadReceipt] = some s2 ∧
      s2.downloads.head? =
        some ("booking_" ++ (mkBooking "Alice" "a@x.com" initialState.selectedFlight 0
            ⟨2026, 10, 11, 0, 0, 0, 0⟩).pnr ++ ".json",
          Booking.toJson (mkBooking "Alice" "a@x.com" initialState.selectedFlight 0
            ⟨2026, 10, 11, 0, 0, 0, 0⟩)) ∧
      Json.toBooking (Booking.toJson (mkBooking "Alice" "a@x.com" initialState.selectedFlight 0
        ⟨2026, 10, 11, 0, 0, 0, 0⟩)) =
        some (mkBooking "Alice" "a@x.com" initialState.selectedFlight 0
          ⟨2026, 10, 11, 0, 0, 0, 0⟩) ∧
      ∃ dt : DateTime, (mkBooking "Alice" "a@x.com" initialState.selectedFlight 0
        ⟨2026, 10, 11, 0, 0, 0, 0⟩).timestamp = toISOString dt :=
  C8_download_roundtrip initialState "Alice" "a@x.com" 0 ⟨2026, 10, 11, 0, 0, 0, 0⟩

/-- C10: right after any `confirmBooking`, the in-memory record and the
storage entry under the key `"booking"` agree (parsing the stored JSON
recovers the in-memory record), and a following `downloadReceipt`
modifies neither the record nor the storage. -/
theorem C10_memory_storage_agree (s : SessionState) (n e : String) (r : ℚ)
    (t : DateTime) :
    ∃ s1 : SessionState,
      step s (Event.confirmBooking n e r t) = some s1 ∧
      ∃ b : Booking, s1.bookingDetails = some b ∧
        getItem "booking" s1.storage = some (Booking.toJson b) ∧
        Json.toBooking (Booking.toJson b) = some b ∧
        ∀ s2 : SessionState, step s1 Event.downloadReceipt = some s2 →
          s2.bookingDetails = s1.bookingDetails ∧ s2.storage = s1.storage := by
  refine ⟨_, rfl, mkBooking n e s.selectedFlight r t, rfl, rfl, toJson_toBooking _, ?_⟩
  intro s2 h2
  simp only [step] at h2
  obtain rfl := Option.some.inj h2
  exact ⟨rfl, rfl⟩

/-- Witness for C10 on a fresh session. -/
theorem C10_memory_storage_agree_witness :
    ∃ s1 : SessionState,
      step initialState (Event.confirmBooking "Alice" "a@x.com" 0
        ⟨2026, 10, 11, 0, 0, 0, 0⟩) = some s1 ∧
      ∃ b : Booking, s1.bookingDetails = some b ∧
        getItem "booking" s1.storage = some (Booking.toJson b) ∧
        Json.toBooking (Booking.toJson b) = some b ∧
        ∀ s2 : SessionState, step s1 Event.downloadReceipt = some s2 →
          s2.bookingDetails = s1.bookingDetails ∧ s2.storage = s1.storage :=
  C10_memory_storage_agree initialState "Alice" "a@x.com" 0 ⟨2026, 10, 11, 0, 0, 0, 0⟩

/-! ### Session traces: where a booked flight can come from -/

theorem run_selection_origin (tr : List Event) : ∀ (s s' : SessionState),
    run s tr = some s' → ∀ f : Flight,
    (s'.selectedFlight = some f → s.selectedFlight = some f ∨ Event.selectOffer f ∈ tr) ∧
    (∀ b : Booking, s'.bookingDetails = some b → b.flight = some f →
      (∃ b0 : Booking, s.bookingDetails = some b0 ∧ b0.flight = some f) ∨
      s.selectedFlight = some f ∨ Event.selectOffer f ∈ tr) := by
  induction tr with
  | nil =>
    intro s s' h f
    obtain rfl := Option.some.inj h
    constructor
    · intro hs
      exact Or.inl hs
    · intro b hb hf
      exact Or.inl ⟨b, hb, hf⟩
  | cons e es ih =>
    intro s s' h f
    cases e with
    | selectOffer g =>
      have h' : run { s with selectedFlight := some g } es = some s' := h
      obtain ⟨hsel, hbook⟩ := ih _ _ h' f
      constructor
      · intro hs'
        rcases hsel hs' with h1 | h2
        · obtain rfl := Option.some.inj h1
          exact Or.inr (List.mem_cons_self _ _)
        · exact Or.inr (List.mem_cons_of_mem _ h2)
      · intro b hb hf
        rcases hbook b hb hf with ⟨b0, hb0, hb0f⟩ | hsel1 | hmem
        · exact Or.inl ⟨b0, hb0, hb0f⟩
        · obtain rfl := Option.some.inj hsel1
          exact Or.inr (Or.inr (List.mem_cons_self _ _))
        · exact Or.inr (Or.inr (List.mem_cons_of_mem _ hmem))
    | confirmBooking nm em r tm =>
      have h' : run { s with
          bookingDetails := some (mkBooking nm em s.selectedFlight r tm),
          storage := setItem "booking"
            (Booking.toJson (mkBooking nm em s.selectedFlight r tm)) s.storage } es =
          some s' := h
      obtain ⟨hsel, hbook⟩ := ih _ _ h' f
      constructor
      · intro hs'
        rcases hsel hs' with h1 | h2
        · exact Or.inl h1
        · exact Or.inr (List.mem_cons_of_mem _ h2)
      · intro b hb hf
        rcases hbook b hb hf with ⟨b0, hb0, hb0f⟩ | hsel1 | hmem
        · obtain rfl := Option.some.inj hb0
          exact Or.inr (Or.inl hb0f)
        · exact Or.inr (Or.inl hsel1)
        · exact Or.inr (Or.inr (List.mem_cons_of_mem _ hmem))
    | downloadReceipt =>
      cases hbd : s.bookingDetails with
      | none =>
        exfalso
        simp only [run, step, hbd, Option.none_bind] at h
        exact Option.noConfusion h
      | some b1 =>
        have h' : run { s with
            downloads := ("booking_" ++ b1.pnr ++ ".json", Booking.toJson b1) ::
              s.downloads } es = some s' := by
          simpa only [run, step, hbd, Option.some_bind] using h
        obtain ⟨hsel, hbook⟩ := ih _ _ h' f
        constructor
        · intro hs'
          rcases hsel hs' with h1 | h2
          · exact Or.inl h1
          · exact Or.inr (List.mem_cons_of_mem _ h2)
        · intro b hb hf
          rcases hbook b hb hf with ⟨b0, hb0, hb0f⟩ | hsel1 | hmem
          · refine Or.inl ⟨b0, ?_, hb0f⟩
            rw [← hbd]
            exact hb0
          · exact Or.inr (Or.inl hsel1)
          · exact Or.inr (Or.inr (List.mem_cons_of_mem _ hmem))

/-- C2 counterexample: from a fresh session with no prior selection,
a single `confirmBooking` call does produce a booking record — it is
stored in the `bookingDetails` global (with a `null` flight field) and
persisted under the `"booking"` key. -/
theorem C2_counterexample :
    ((run initialState
        [Event.confirmBooking "Alice" "a@x.com" 0 ⟨2026, 10, 11, 0, 0, 0, 0⟩]).bind
      SessionState.bookingDetails).isSome = true ∧
    ((run initialState
        [Event.confirmBooking "Alice" "a@x.com" 0 ⟨2026, 10, 11, 0, 0, 0, 0⟩]).bind
      SessionState.bookingDetails).map Booking.flight = some none ∧
    ((run initialState
        [Event.confirmBooking "Alice" "a@x.com" 0 ⟨2026, 10, 11, 0, 0, 0, 0⟩]).map
      (fun s => (getItem "booking" s.storage).isSome)) = some true :=
  ⟨rfl, rfl, rfl⟩

/-- C2 (amended): `confirmBooking` always produces and persists a
record, even with no prior selection (then its flight field is `null`);
a booking record whose flight field holds an actual offer `f` can only
arise in a session in which `selectOffer f` happened before. -/
theorem C2_booked_flight_requires_selection (tr : List Event) (s' : SessionState)
    (h : run initialState tr = some s') (b : Booking) (f : Flight)
    (hb : s'.bookingDetails = some b) (hf : b.flight = some f) :
    Event.selectOffer f ∈ tr := by
  rcases (run_selection_origin tr initialState s' h f).2 b hb hf with
    ⟨b0, hb0, _⟩ | hsel | hmem
  · exact Option.noConfusion hb0
  · exact Option.noConfusion hsel
  · exact hmem

/-- Witness for C2: in the two-event session select-then-confirm, the
booked flight was indeed selected. -/
theorem C2_booked_flight_requires_selection_witness :
    Event.selectOffer { airline := "IndiGo", flight := "6E305", time := "14:30", price := 5000 } ∈
      [Event.selectOffer { airline := "IndiGo", flight := "6E305", time := "14:30", price := 5000 },
       Event.confirmBooking "Alice" "a@x.com" 0 ⟨2026, 10, 11, 0, 0, 0, 0⟩] :=
  C2_booked_flight_requires_selection
    [Event.selectOffer { airline := "IndiGo", flight := "6E305", time := "14:30", price := 5000 },
     Event.confirmBooking "Alice" "a@x.com" 0 ⟨2026, 10, 11, 0, 0, 0, 0⟩]
    { selectedFlight := some { airline := "IndiGo", flight := "6E305", time := "14:30", price := 5000 },
      bookingDetails := some (mkBooking "Alice" "a@x.com"
        (some { airline := "IndiGo", flight := "6E305", time := "14:30", price := 5000 })
        0 ⟨2026, 10, 11, 0, 0, 0, 0⟩),
      storage := [("booking", Booking.toJson (mkBooking "Alice" "a@x.com"
        (some { airline := "IndiGo", flight := "6E305", time := "14:30", price := 5000 })
        0 ⟨2026, 10, 11, 0, 0, 0, 0⟩))],
      downloads := [] }
    rfl
    (mkBooking "Alice" "a@x.com"
      (some { airline := "IndiGo", flight := "6E305", time := "14:30", price := 5000 })
      0 ⟨2026, 10, 11, 0, 0, 0, 0⟩)
    { airline := "IndiGo", flight := "6E305", time := "14:30", price := 5000 }
    rfl rfl

end FlightSim
